import Mathlib

/-!
# Verification of the MCP API test-data server (`main.py`)

Shallow embedding of the core of `main.py`: the resilient POST executor
`api_post_with_retry`, the payload synthesizer `generate_fake_data`, the
configuration-driven catalog `handle_list_tools` and the dispatcher
`handle_call_tool`.

Modelling conventions:
* Python dicts/JSON values are modelled by the inductive `Json` below.
  Python `int` objects map to `Json.int`, Python `float` objects to
  `Json.rat` (exact rational semantics; the only float produced by the
  code is the `price` value, whose operands have at most two decimal
  digits, so `round(x, 2)` is the identity in exact arithmetic).
* The network is an oracle: `net k` is the outcome of the k-th HTTP POST
  attempt (1-indexed, matching the Python loop variable `attempt`).
  `httpx` raising `RequestError` is `NetOutcome.requestError`; receiving
  a response with a given status code and a body whose JSON parse either
  succeeds or raises is `NetOutcome.response`.
* A Python function that may raise an uncaught exception is modelled with
  `Except String`: `.error msg` is an exception escaping the function,
  `.ok v` a normal return (`v = none` models returning Python `None`).
* `asyncio.sleep` calls are recorded in a `sleeps` trace (time-units);
  each issued POST is counted in `attempts` / recorded in `posts`.
* The `Faker` library instance `fake` is an external stateful collaborator;
  it is modelled as an oracle structure, and the dispatcher receives one
  oracle snapshot per generated record (`fakeSeq i` for record `i`).
  `fake.unique.clear()` only mutates library-internal state and has no
  observable effect in this model.
-/

/-- JSON-like values: the model of Python dicts, lists and scalars. -/
inductive Json : Type where
  | null : Json
  | bool : Bool → Json
  | int : Int → Json
  | rat : Rat → Json
  | str : String → Json
  | arr : List Json → Json
  | obj : List (String × Json) → Json
deriving Repr

/-- Outcome of one HTTP POST attempt, as seen by `api_post_with_retry`. -/
inductive NetOutcome : Type where
  /-- `client.post` raised an `httpx.RequestError` (connection error,
  timeout, DNS failure, ...) with message `msg`. -/
  | requestError : (msg : String) → NetOutcome
  /-- A response arrived with the given status code; `body` is the result
  of parsing its body as JSON (`.error` models `response.json()` raising
  a `JSONDecodeError`). -/
  | response : (status : Nat) → (body : Except String Json) → NetOutcome

/-- The observable behaviour of one `api_post_with_retry` call: how many
POSTs were issued, the backoff delays slept (in order), and the returned
value or escaped exception. -/
structure ExecResult : Type where
  attempts : Nat
  sleeps : List Nat
  outcome : Except String (Option Json)
deriving Repr

/-- The dict `{"status": "success", "data": data}` built at `main.py:107`. -/
def mkSuccess (data : Json) : Json :=
  .obj [("status", .str "success"), ("data", data)]

/-- The dict `{"status": "error", "error": e, "payload": payload}` built at
`main.py:111`. -/
def mkError (e : String) (payload : Json) : Json :=
  .obj [("status", .str "error"), ("error", .str e), ("payload", payload)]

/-- The `str(e)` text of the `HTTPStatusError` that `raise_for_status`
raises for a non-2xx status (the exact wording is irrelevant to the
claims; only the status code is kept). -/
def statusMessage (status : Nat) : String :=
  "HTTPStatusError: status code " ++ toString status

/-- The body of `api_post_with_retry` (`main.py:103-112`):
`for attempt in range(1, retries + 1)`, on each attempt POST, treat
`RequestError` and non-2xx (`raise_for_status`) as retryable failure,
return the error dict on the final attempt, otherwise sleep `2 ** attempt`
and continue.  The loop is embedded structurally over `remaining`, the
number of loop iterations still available *including* the current one, so
`remaining = retries + 1 - attempt` and the Python test
`attempt == retries` is `remaining = 1`, i.e. the tail recursion happens
exactly while `remaining - 1 ≥ 1`.  A 2xx response whose body fails to
parse raises past the `except (RequestError, HTTPStatusError)` clause:
that is the `.error` outcome. -/
def retryLoop (net : Nat → NetOutcome) (payload : Json) :
    (remaining : Nat) → (attempt : Nat) → ExecResult
  | 0, _ => ⟨0, [], .ok none⟩
  | remaining + 1, attempt =>
    match net attempt with
    | .requestError msg =>
      if remaining = 0 then
        ⟨1, [], .ok (some (mkError msg payload))⟩
      else
        let rest := retryLoop net payload remaining (attempt + 1)
        ⟨rest.attempts + 1, 2 ^ attempt :: rest.sleeps, rest.outcome⟩
    | .response status body =>
      if 200 ≤ status ∧ status < 300 then
        match body with
        | .ok data => ⟨1, [], .ok (some (mkSuccess data))⟩
        | .error e => ⟨1, [], .error e⟩
      else
        if remaining = 0 then
          ⟨1, [], .ok (some (mkError (statusMessage status) payload))⟩
        else
          let rest := retryLoop net payload remaining (attempt + 1)
          ⟨rest.attempts + 1, 2 ^ attempt :: rest.sleeps, rest.outcome⟩

/-- `api_post_with_retry(client, endpoint, payload, retries)`
(`main.py:102`).  `retries` is a Python `int` (default `3`; every caller
in `main.py` uses the default, passed explicitly here); for
`retries ≤ 0` the range `range(1, retries + 1)` is empty and the function
falls off the loop, returning `None`. -/
def api_post_with_retry (net : Nat → NetOutcome) (payload : Json)
    (retries : Int) : ExecResult :=
  retryLoop net payload retries.toNat 1

/-- An attempt outcome that the `except` clause catches and retries:
either a transport error or a response with a non-2xx status. -/
def failing : NetOutcome → Prop
  | .requestError _ => True
  | .response status _ => ¬(200 ≤ status ∧ status < 300)

instance : DecidablePred failing := by
  intro o; cases o with
  | requestError msg => exact isTrue trivial
  | response status body => exact inferInstanceAs (Decidable ¬_)

/-- An attempt outcome on which the executor raises an uncaught
exception: a 2xx response whose body is not parseable JSON
(`response.json()` raises `JSONDecodeError`, which is neither an
`httpx.RequestError` nor an `httpx.HTTPStatusError`). -/
def raising : NetOutcome → Prop
  | .response status (.error _) => 200 ≤ status ∧ status < 300
  | _ => False

instance : DecidablePred raising := by
  intro o; cases o with
  | requestError msg => exact isFalse (fun h => h)
  | response status body =>
    cases body with
    | ok v => exact isFalse (fun h => h)
    | error e => exact inferInstanceAs (Decidable (_ ∧ _))

/-- Oracle for the external `Faker` library instance `fake`.  The library
is stateful; one `Faker` value records the draws one `generate_fake_data`
call observes.  `random_number digits draw` is the value of the
`draw`-th call of `fake.random_number(digits=digits)` inside the `price`
branch (the branch calls it twice); `attr m` is `some v` when
`hasattr(fake, m)` holds and `getattr(fake, m)()` returns `v`, and `none`
when the attribute is missing. -/
structure Faker : Type where
  random_int : Int → Int → Int
  random_number : Nat → Nat → Nat
  bothify : String → String
  attr : String → Option Json

/-- The float `round(a + b/100, 2)` from the `price` branch
(`main.py:87`), in exact rational arithmetic: both operands have at most
two decimal digits, so the rounding is the identity. -/
def priceValue (a b : Nat) : Rat :=
  (a : Rat) + (b : Rat) / 100

/-- `isinstance(value, str)` post-processing of a faker attribute value
(`main.py:92-95`): flatten embedded newlines of string values to `", "`,
leave any other value unchanged. -/
def flattenValue : Json → Json
  | .str s => .str (s.replace "\n" ", ")
  | v => v

/-- `generate_fake_data(field_map)` (`main.py:81-98`): build one payload
dict by dispatching each field on its generator tag (`int`, `price`,
`sku`, a faker attribute name, or the visible placeholder for an unknown
tag).  Python dict iteration is insertion order, modelled by the
association list order. -/
def generate_fake_data (fake : Faker) (field_map : List (String × String)) : Json :=
  .obj (field_map.map (fun kv =>
    let key := kv.1
    let faker_method := kv.2
    if faker_method = "int" then
      (key, Json.int (fake.random_int 0 1000))
    else if faker_method = "price" then
      (key, Json.rat (priceValue (fake.random_number 2 0) (fake.random_number 2 1)))
    else if faker_method = "sku" then
      (key, Json.str (fake.bothify "????-####"))
    else
      match fake.attr faker_method with
      | some value => (key, flattenValue value)
      | none => (key, Json.str ("<no faker method: " ++ faker_method ++ ">"))))

/-- One entry of the `ENDPOINTS` configuration map: a remote path and the
declarative field-to-generator-tag map. -/
structure EndpointSpec : Type where
  path : String
  fields : List (String × String)

/-- The loaded `ENDPOINTS` dict (`main.py:28`): operation key
(`products` / `customers` / `reset`) to endpoint spec, insertion order. -/
def Endpoints : Type := List (String × EndpointSpec)

/-- One property of a tool's advertised `inputSchema`: its JSON type and
human-readable description. -/
structure PropertySpec : Type where
  type : String
  description : String

/-- The advertised `inputSchema` of a tool (`main.py:41-45` etc.). -/
structure InputSchema : Type where
  type : String
  properties : List (String × PropertySpec)
  required : List String

/-- An `mcp.types.Tool` entry as built by `handle_list_tools`. -/
structure Tool : Type where
  name : String
  description : String
  inputSchema : InputSchema

/-- The `create_test_products` tool entry (`main.py:37-47`). -/
def productsTool : Tool :=
  { name := "create_test_products"
    description := "Creates test products by calling the /products API endpoint."
    inputSchema :=
      { type := "object"
        properties := [("count", ⟨"number", "Number of products to create."⟩)]
        required := ["count"] } }

/-- The `create_test_customers` tool entry (`main.py:50-60`). -/
def customersTool : Tool :=
  { name := "create_test_customers"
    description := "Creates test customers by calling the /customers API endpoint."
    inputSchema :=
      { type := "object"
        properties := [("count", ⟨"number", "Number of customers to create."⟩)]
        required := ["count"] } }

/-- The `clear_test_data` tool entry (`main.py:63-75`). -/
def resetTool : Tool :=
  { name := "clear_test_data"
    description := "**DANGER**: Clears all test data via /admin/reset-test-db."
    inputSchema :=
      { type := "object"
        properties := [("confirm", ⟨"boolean", "Set to true to confirm data wipe."⟩)]
        required := ["confirm"] } }

/-- `handle_list_tools()` (`main.py:32-77`): start from an empty list and
append each of the three tools exactly when its configuration key is
present in `ENDPOINTS`. -/
def handle_list_tools (endpoints : Endpoints) : List Tool :=
  (if (List.lookup "products" endpoints).isSome then [productsTool] else []) ++
  (if (List.lookup "customers" endpoints).isSome then [customersTool] else []) ++
  (if (List.lookup "reset" endpoints).isSome then [resetTool] else [])

/-- An `mcp.types.TextContent` reply item.  `text` holds
`json.dumps(...)` output; serialization to a byte string is external
formatting, so the model keeps the JSON value itself. -/
structure TextContent : Type where
  type : String
  text : Json

/-- Python truthiness of a JSON-like value, for
`if not arguments.get("confirm")` (`main.py:144`). -/
def truthy : Json → Bool
  | .null => false
  | .bool b => b
  | .int n => n ≠ 0
  | .rat q => q ≠ 0
  | .str s => s ≠ ""
  | .arr xs => !xs.isEmpty
  | .obj fs => !fs.isEmpty

/-- `arguments.get("confirm")` is `None` when the key is absent, and
`None` is falsy. -/
def truthyOpt : Option Json → Bool
  | none => false
  | some v => truthy v

/-- `count = arguments.get("count", 1)` followed by `range(count)`
(`main.py:122,126`): absent defaults to `1`; a Python `int` (or `bool`,
an `int` subclass) is accepted; any other value makes `range(count)`
raise a `TypeError`. -/
def getCountArg (arguments : List (String × Json)) : Except String Int :=
  match List.lookup "count" arguments with
  | none => .ok 1
  | some (.int n) => .ok n
  | some (.bool b) => .ok (if b then 1 else 0)
  | some _ => .error "TypeError: range() argument must be an int"

/-- The observable behaviour of one `handle_call_tool` invocation:
the executor calls made, as `(path, payload)` in order (each such call
may issue several HTTP attempts), and the returned content list or the
exception escaping the handler. -/
structure CallOutput : Type where
  posts : List (String × Json)
  result : Except String (List TextContent)

/-- The generation loop of `main.py:126-129` / `main.py:136-139`:
`count` iterations, each synthesizing a payload and submitting it via
`api_post_with_retry` with the default `retries = 3`, appending the
result.  `i` is the index of the current record within the batch (used to
address the per-record faker snapshot and network oracle); an exception
escaping the executor aborts the remaining iterations. -/
def runBatch (fakeSeq : Nat → Faker) (net : Nat → Nat → NetOutcome)
    (path : String) (fields : List (String × String)) :
    (count : Nat) → (i : Nat) → List (String × Json) × List Json × Option String
  | 0, _ => ([], [], none)
  | count + 1, i =>
    let payload := generate_fake_data (fakeSeq i) fields
    let r := api_post_with_retry (net i) payload 3
    match r.outcome with
    | .error e => ([(path, payload)], [], some e)
    | .ok v =>
      let rest := runBatch fakeSeq net path fields count (i + 1)
      ((path, payload) :: rest.1, (v.getD Json.null) :: rest.2.1, rest.2.2)

/-- Shared body of the `create_test_products` and `create_test_customers`
branches (`main.py:121-141`): read `count` (default 1), run the batch,
serialize the accumulated result list as one text content item. -/
def runCreate (fakeSeq : Nat → Faker) (net : Nat → Nat → NetOutcome)
    (spec : EndpointSpec) (arguments : List (String × Json)) : CallOutput :=
  match getCountArg arguments with
  | .error e => ⟨[], .error e⟩
  | .ok c =>
    let b := runBatch fakeSeq net spec.path spec.fields c.toNat 0
    match b.2.2 with
    | some e => ⟨b.1, .error e⟩
    | none => ⟨b.1, .ok [⟨"text", Json.arr b.2.1⟩]⟩

/-- `handle_call_tool(name, arguments)` (`main.py:117-154`).  The Python
`if/elif` chain tests `name == <tool> and <key> in ENDPOINTS`; since the
three name tests are mutually exclusive, a matching name with a missing
configuration key falls through every branch to the final
`raise ValueError(f"Unknown tool: ...")`, which the nested form below
reproduces.  `fakeSeq i` / `net i` are the faker snapshot and network
oracle of the i-th executor call of the invocation. -/
def handle_call_tool (endpoints : Endpoints) (fakeSeq : Nat → Faker)
    (net : Nat → Nat → NetOutcome) (name : String)
    (arguments : List (String × Json)) : CallOutput :=
  if name = "create_test_products" then
    match List.lookup "products" endpoints with
    | some spec => runCreate fakeSeq net spec arguments
    | none => ⟨[], .error ("ValueError: Unknown tool: " ++ name)⟩
  else if name = "create_test_customers" then
    -- after this batch the source also runs `fake.unique.clear()`,
    -- a faker-internal state reset with no observable effect here
    match List.lookup "customers" endpoints with
    | some spec => runCreate fakeSeq net spec arguments
    | none => ⟨[], .error ("ValueError: Unknown tool: " ++ name)⟩
  else if name = "clear_test_data" then
    match List.lookup "reset" endpoints with
    | some spec =>
      if truthyOpt (List.lookup "confirm" arguments) then
        let r := api_post_with_retry (net 0) (Json.obj []) 3
        match r.outcome with
        | .error e => ⟨[(spec.path, Json.obj [])], .error e⟩
        | .ok v =>
          ⟨[(spec.path, Json.obj [])], .ok [⟨"text", Json.arr [v.getD Json.null]⟩]⟩
      else
        ⟨[], .ok [⟨"text",
          Json.obj [("status", .str "cancelled"),
                    ("reason", .str "Confirmation required")]⟩]⟩
    | none => ⟨[], .error ("ValueError: Unknown tool: " ++ name)⟩
  else
    ⟨[], .error ("ValueError: Unknown tool: " ++ name)⟩

/-- The JSON value the dispatcher appends to `results` for one record
submitted through the executor (the returned dict, or `null` for a
Python `None`; unreachable `.error` mapped to `null`). -/
def postResultJson (net : Nat → NetOutcome) (payload : Json) : Json :=
  match (api_post_with_retry net payload 3).outcome with
  | .ok v => v.getD Json.null
  | .error _ => Json.null

/-- A network oracle that fails every attempt with a transport error. -/
def netAllFail : Nat → NetOutcome := fun _ => .requestError "ConnectError: connection refused"

/-- A network oracle whose first response is 2xx with an unparseable body. -/
def netBadBody : Nat → NetOutcome := fun _ => .response 200 (.error "JSONDecodeError: Expecting value")

/-- A network oracle failing on attempts 1 and 2 and succeeding on attempt 3. -/
def netFailTwice : Nat → NetOutcome := fun k =>
  if k ≤ 2 then .requestError "ReadTimeout" else .response 200 (.ok (Json.str "A"))

/-- A sample payload used by concrete counterexamples and witnesses. -/
def samplePayload : Json := Json.obj [("name", Json.str "Sample")]

/-- A sample faker oracle: every attribute resolves to a fixed string. -/
def sampleFaker : Faker :=
  { random_int := fun _ _ => 7
    random_number := fun _ _ => 42
    bothify := fun _ => "ABCD-1234"
    attr := fun _ => some (Json.str "value") }

/-- A sample endpoint spec for concrete witnesses. -/
def sampleSpec : EndpointSpec := ⟨"/products", [("name", "name")]⟩

/-- A sample customers endpoint spec for concrete witnesses. -/
def sampleCustomersSpec : EndpointSpec := ⟨"/customers", [("email", "email")]⟩

/-- A sample reset endpoint spec for concrete witnesses. -/
def sampleResetSpec : EndpointSpec := ⟨"/admin/reset-test-db", []⟩

/-- A sample configuration with all three operation keys present. -/
def sampleEndpoints : Endpoints :=
  [("products", sampleSpec), ("customers", sampleCustomersSpec), ("reset", sampleResetSpec)]

/-- A per-record network oracle where every attempt of every record fails
with a transport error. -/
def net2AllFail : Nat → Nat → NetOutcome := fun _ _ => .requestError "ConnectError"

/-- A constant faker-snapshot stream for concrete witnesses. -/
def sampleFakeSeq : Nat → Faker := fun _ => sampleFaker

lemma retryLoop_step (net : Nat → NetOutcome) (payload : Json) (m a : Nat) :
    retryLoop net payload (m + 1) a =
      match net a with
      | .requestError msg =>
        if m = 0 then
          ⟨1, [], .ok (some (mkError msg payload))⟩
        else
          ⟨(retryLoop net payload m (a + 1)).attempts + 1,
           2 ^ a :: (retryLoop net payload m (a + 1)).sleeps,
           (retryLoop net payload m (a + 1)).outcome⟩
      | .response status body =>
        if 200 ≤ status ∧ status < 300 then
          match body with
          | .ok data => ⟨1, [], .ok (some (mkSuccess data))⟩
          | .error e => ⟨1, [], .error e⟩
        else
          if m = 0 then
            ⟨1, [], .ok (some (mkError (statusMessage status) payload))⟩
          else
            ⟨(retryLoop net payload m (a + 1)).attempts + 1,
             2 ^ a :: (retryLoop net payload m (a + 1)).sleeps,
             (retryLoop net payload m (a + 1)).outcome⟩ := rfl

/-- A retryable failure on a non-final attempt: one POST, one backoff
sleep of `2 ^ attempt`, and the loop continues. -/
lemma retryLoop_fail_step (net : Nat → NetOutcome) (payload : Json)
    (m a : Nat) (hf : failing (net a)) (hm : m ≠ 0) :
    retryLoop net payload (m + 1) a =
      ⟨(retryLoop net payload m (a + 1)).attempts + 1,
       2 ^ a :: (retryLoop net payload m (a + 1)).sleeps,
       (retryLoop net payload m (a + 1)).outcome⟩ := by
  rw [retryLoop_step]
  cases hna : net a with
  | requestError msg => simp [hm]
  | response status body =>
    rw [hna] at hf
    simp only [if_neg hf, if_neg hm]

/-- A retryable failure on the final attempt: the error dict is returned
at once, with no further sleep. -/
lemma retryLoop_fail_last (net : Nat → NetOutcome) (payload : Json)
    (a : Nat) (hf : failing (net a)) :
    ∃ e, retryLoop net payload 1 a = ⟨1, [], .ok (some (mkError e payload))⟩ := by
  rw [retryLoop_step]
  cases hna : net a with
  | requestError msg => exact ⟨msg, by simp⟩
  | response status body =>
    rw [hna] at hf
    exact ⟨statusMessage status, by simp [if_neg hf]⟩

lemma retryLoop_attempts_pos (net : Nat → NetOutcome) (payload : Json)
    (m a : Nat) : 1 ≤ (retryLoop net payload (m + 1) a).attempts := by
  rw [retryLoop_step]
  cases hna : net a with
  | requestError msg =>
    by_cases hm : m = 0 <;> simp [hm]
  | response status body =>
    by_cases hs : 200 ≤ status ∧ status < 300
    · cases body <;> simp [hs]
    · by_cases hm : m = 0 <;> simp [hs, hm]

lemma retryLoop_fail (net : Nat → NetOutcome) (payload : Json)
    (hf : ∀ k, failing (net k)) : ∀ m a,
    (retryLoop net payload (m + 1) a).attempts = m + 1 ∧
    (retryLoop net payload (m + 1) a).sleeps.length = m ∧
    ∃ e, (retryLoop net payload (m + 1) a).outcome = .ok (some (mkError e payload)) := by
  intro m
  induction m with
  | zero =>
    intro a
    obtain ⟨e, he⟩ := retryLoop_fail_last net payload a (hf a)
    rw [he]
    exact ⟨rfl, rfl, e, rfl⟩
  | succ m ih =>
    intro a
    rw [retryLoop_fail_step net payload (m + 1) a (hf a) (Nat.succ_ne_zero m)]
    obtain ⟨h1, h2, e, h3⟩ := ih (a + 1)
    exact ⟨by simp [h1], by simp [h2], e, h3⟩

/-- A 2xx response with a parseable body: immediate success, no sleep. -/
lemma retryLoop_success_step (net : Nat → NetOutcome) (payload : Json)
    (m a status : Nat) (data : Json)
    (hna : net a = .response status (.ok data))
    (hs : 200 ≤ status ∧ status < 300) :
    retryLoop net payload (m + 1) a = ⟨1, [], .ok (some (mkSuccess data))⟩ := by
  rw [retryLoop_step, hna]
  simp [hs]

/-- A 2xx response with an unparseable body: the `JSONDecodeError` of
`response.json()` escapes the `except` clause immediately. -/
lemma retryLoop_raise_step (net : Nat → NetOutcome) (payload : Json)
    (m a status : Nat) (e : String)
    (hna : net a = .response status (.error e))
    (hs : 200 ≤ status ∧ status < 300) :
    retryLoop net payload (m + 1) a = ⟨1, [], .error e⟩ := by
  rw [retryLoop_step, hna]
  simp [hs]

lemma retryLoop_sleeps (net : Nat → NetOutcome) (payload : Json) : ∀ m a,
    (retryLoop net payload m a).sleeps =
      (List.range ((retryLoop net payload m a).attempts - 1)).map (fun i => 2 ^ (a + i)) := by
  intro m
  induction m with
  | zero => intro a; simp [retryLoop]
  | succ m ih =>
    intro a
    have hcons : ∀ rest : ExecResult, rest.sleeps =
        (List.range (rest.attempts - 1)).map (fun i => 2 ^ (a + 1 + i)) →
        1 ≤ rest.attempts →
        (2 ^ a :: rest.sleeps : List Nat) =
          (List.range (rest.attempts + 1 - 1)).map (fun i => 2 ^ (a + i)) := by
      intro rest hrest hpos
      obtain ⟨n, hn⟩ := Nat.exists_eq_add_of_le hpos
      have hfun : (fun i => 2 ^ (a + 1 + i)) = (fun i => 2 ^ (a + (i + 1))) := by
        funext i; congr 1; omega
      rw [hrest, hn]
      simp only [Nat.add_sub_cancel, Nat.add_sub_cancel_left]
      rw [show 1 + n = n + 1 by omega, List.range_succ_eq_map, List.map_cons,
        List.map_map, hfun]
      simp [Function.comp]
    by_cases hfail : failing (net a)
    · by_cases hm : m = 0
      · subst hm
        obtain ⟨e, he⟩ := retryLoop_fail_last net payload a hfail
        rw [he]
        simp
      · obtain ⟨m', rfl⟩ := Nat.exists_eq_succ_of_ne_zero hm
        have hpos := retryLoop_attempts_pos net payload m' (a + 1)
        rw [retryLoop_fail_step net payload (m' + 1) a hfail (Nat.succ_ne_zero m')]
        exact hcons _ (ih (a + 1)) hpos
    · cases hna : net a with
      | requestError msg => exact absurd (by rw [hna]; trivial) hfail
      | response status body =>
        have hs : 200 ≤ status ∧ status < 300 := by
          rw [hna] at hfail
          by_contra hc
          exact hfail hc
        cases body with
        | ok data =>
          rw [retryLoop_success_step net payload m a status data hna hs]
          simp
        | error e =>
          rw [retryLoop_raise_step net payload m a status e hna hs]
          simp

lemma retryLoop_no_raise (net : Nat → NetOutcome) (payload : Json)
    (h : ∀ k, ¬ raising (net k)) : ∀ m a,
    ∃ v, (retryLoop net payload m a).outcome = .ok v := by
  intro m
  induction m with
  | zero => intro a; exact ⟨none, rfl⟩
  | succ m ih =>
    intro a
    by_cases hfail : failing (net a)
    · by_cases hm : m = 0
      · subst hm
        obtain ⟨e, he⟩ := retryLoop_fail_last net payload a hfail
        exact ⟨some (mkError e payload), by rw [he]⟩
      · obtain ⟨v, hv⟩ := ih (a + 1)
        rw [retryLoop_fail_step net payload m a hfail hm]
        exact ⟨v, hv⟩
    · cases hna : net a with
      | requestError msg => exact absurd (by rw [hna]; trivial) hfail
      | response status body =>
        have hs : 200 ≤ status ∧ status < 300 := by
          rw [hna] at hfail
          by_contra hc
          exact hfail hc
        cases body with
        | ok data =>
          rw [retryLoop_success_step net payload m a status data hna hs]
          exact ⟨some (mkSuccess data), rfl⟩
        | error e =>
          exfalso
          have := h a
          rw [hna] at this
          exact this hs

lemma api_no_raise (net : Nat → NetOutcome) (payload : Json)
    (h : ∀ k, ¬ raising (net k)) (retries : Int) :
    ∃ v, (api_post_with_retry net payload retries).outcome = .ok v :=
  retryLoop_no_raise net payload h retries.toNat 1

lemma postResultJson_eq (net : Nat → NetOutcome) (payload : Json) (v : Option Json)
    (hv : (api_post_with_retry net payload 3).outcome = .ok v) :
    postResultJson net payload = v.getD Json.null := by
  unfold postResultJson
  rw [hv]

lemma runBatch_step (fakeSeq : Nat → Faker) (net : Nat → Nat → NetOutcome)
    (path : String) (fields : List (String × String)) (count i : Nat) :
    runBatch fakeSeq net path fields (count + 1) i =
      match (api_post_with_retry (net i) (generate_fake_data (fakeSeq i) fields) 3).outcome with
      | .error e => ([(path, generate_fake_data (fakeSeq i) fields)], [], some e)
      | .ok v =>
        ((path, generate_fake_data (fakeSeq i) fields) ::
           (runBatch fakeSeq net path fields count (i + 1)).1,
         v.getD Json.null :: (runBatch fakeSeq net path fields count (i + 1)).2.1,
         (runBatch fakeSeq net path fields count (i + 1)).2.2) := rfl

lemma runBatch_no_raise (fakeSeq : Nat → Faker) (net : Nat → Nat → NetOutcome)
    (path : String) (fields : List (String × String))
    (h : ∀ j k, ¬ raising (net j k)) : ∀ count i,
    runBatch fakeSeq net path fields count i =
      ((List.range count).map (fun j => (path, generate_fake_data (fakeSeq (i + j)) fields)),
       (List.range count).map (fun j =>
         postResultJson (net (i + j)) (generate_fake_data (fakeSeq (i + j)) fields)),
       none) := by
  intro count
  induction count with
  | zero => intro i; simp [runBatch]
  | succ count ih =>
    intro i
    obtain ⟨v, hv⟩ := api_no_raise (net i) (generate_fake_data (fakeSeq i) fields) (h i) 3
    rw [runBatch_step, hv]
    rw [ih (i + 1)]
    have hpost := postResultJson_eq (net i) (generate_fake_data (fakeSeq i) fields) v hv
    have hfun1 : (fun j => ((path, generate_fake_data (fakeSeq (i + 1 + j)) fields) : String × Json)) =
        (fun j => (path, generate_fake_data (fakeSeq (i + (j + 1))) fields)) := by
      funext j
      have hj : i + 1 + j = i + (j + 1) := by omega
      rw [hj]
    have hfun2 : (fun j => postResultJson (net (i + 1 + j)) (generate_fake_data (fakeSeq (i + 1 + j)) fields)) =
        (fun j => postResultJson (net (i + (j + 1))) (generate_fake_data (fakeSeq (i + (j + 1))) fields)) := by
      funext j
      have hj : i + 1 + j = i + (j + 1) := by omega
      rw [hj]
    rw [List.range_succ_eq_map, List.map_cons, List.map_cons, List.map_map, List.map_map]
    simp only [Nat.add_zero, Function.comp_def, Nat.succ_eq_add_one]
    rw [hfun1, hfun2, hpost]

lemma handle_products_eq (endpoints : Endpoints) (fakeSeq : Nat → Faker)
    (net : Nat → Nat → NetOutcome) (arguments : List (String × Json))
    (ps : EndpointSpec) (hp : List.lookup "products" endpoints = some ps) :
    handle_call_tool endpoints fakeSeq net "create_test_products" arguments =
      runCreate fakeSeq net ps arguments := by
  rw [handle_call_tool, if_pos rfl, hp]

lemma handle_customers_eq (endpoints : Endpoints) (fakeSeq : Nat → Faker)
    (net : Nat → Nat → NetOutcome) (arguments : List (String × Json))
    (cs : EndpointSpec) (hc : List.lookup "customers" endpoints = some cs) :
    handle_call_tool endpoints fakeSeq net "create_test_customers" arguments =
      runCreate fakeSeq net cs arguments := by
  rw [handle_call_tool, if_neg (by decide), if_pos rfl, hc]

lemma handle_reset_eq (endpoints : Endpoints) (fakeSeq : Nat → Faker)
    (net : Nat → Nat → NetOutcome) (arguments : List (String × Json))
    (rs : EndpointSpec) (hr : List.lookup "reset" endpoints = some rs) :
    handle_call_tool endpoints fakeSeq net "clear_test_data" arguments =
      (if truthyOpt (List.lookup "confirm" arguments) then
        match (api_post_with_retry (net 0) (Json.obj []) 3).outcome with
        | .error e => ⟨[(rs.path, Json.obj [])], .error e⟩
        | .ok v =>
          ⟨[(rs.path, Json.obj [])], .ok [⟨"text", Json.arr [v.getD Json.null]⟩]⟩
      else
        ⟨[], .ok [⟨"text",
          Json.obj [("status", .str "cancelled"),
                    ("reason", .str "Confirmation required")]⟩]⟩) := by
  rw [handle_call_tool, if_neg (by decide), if_neg (by decide), if_pos rfl, hr]

lemma runCreate_count (fakeSeq : Nat → Faker) (net : Nat → Nat → NetOutcome)
    (spec : EndpointSpec) (arguments : List (String × Json)) (C : Nat)
    (hcount : getCountArg arguments = .ok (C : Int))
    (hnr : ∀ j k, ¬ raising (net j k)) :
    runCreate fakeSeq net spec arguments =
      ⟨(List.range C).map (fun j => (spec.path, generate_fake_data (fakeSeq j) spec.fields)),
       .ok [⟨"text", Json.arr ((List.range C).map (fun j =>
         postResultJson (net j) (generate_fake_data (fakeSeq j) spec.fields)))⟩]⟩ := by
  have htn : ((C : Int)).toNat = C := by omega
  simp only [runCreate, hcount, htn,
    runBatch_no_raise fakeSeq net spec.path spec.fields hnr, Nat.zero_add]

lemma retryLoop_ne_none (net : Nat → NetOutcome) (payload : Json) : ∀ m a, 1 ≤ m →
    (retryLoop net payload m a).outcome ≠ .ok none := by
  intro m
  induction m with
  | zero => intro a h; omega
  | succ m ih =>
    intro a _
    by_cases hfail : failing (net a)
    · by_cases hm : m = 0
      · subst hm
        obtain ⟨e, he⟩ := retryLoop_fail_last net payload a hfail
        rw [he]
        simp
      · rw [retryLoop_fail_step net payload m a hfail hm]
        exact ih (a + 1) (Nat.one_le_iff_ne_zero.mpr hm)
    · cases hna : net a with
      | requestError msg => exact absurd (by rw [hna]; trivial) hfail
      | response status body =>
        have hs : 200 ≤ status ∧ status < 300 := by
          rw [hna] at hfail
          by_contra hc
          exact hfail hc
        cases body with
        | ok data =>
          rw [retryLoop_success_step net payload m a status data hna hs]
          simp
        | error e =>
          rw [retryLoop_raise_step net payload m a status e hna hs]
          simp

/-- C1: for every `max_attempts = N ≥ 1` and every payload, if the POST
fails (transport error or non-2xx status) on every attempt, then
`api_post_with_retry` performs exactly N attempts, sleeps only between
attempts (N - 1 backoff delays, none after the final attempt), and
returns an Error result whose `payload` field equals the original
payload. -/
theorem C1_exhausted_retries_error_payload (net : Nat → NetOutcome) (payload : Json)
    (N : Nat) (hN : 1 ≤ N) (hf : ∀ k, failing (net k)) :
    (api_post_with_retry net payload (N : Int)).attempts = N ∧
    (api_post_with_retry net payload (N : Int)).sleeps.length = N - 1 ∧
    ∃ e, (api_post_with_retry net payload (N : Int)).outcome =
      .ok (some (mkError e payload)) := by
  obtain ⟨m, rfl⟩ := Nat.exists_eq_add_of_le hN
  have htn : ((1 + m : Nat) : Int).toNat = m + 1 := by omega
  unfold api_post_with_retry
  rw [htn]
  obtain ⟨h1, h2, e, h3⟩ := retryLoop_fail net payload hf m 1
  refine ⟨?_, ?_, e, h3⟩
  · rw [h1]
    omega
  · rw [h2]
    omega

theorem C1_witness :
    (1 ≤ 3 ∧ ∀ k, failing (netAllFail k)) ∧
    (api_post_with_retry netAllFail samplePayload ((3 : Nat) : Int)).attempts = 3 ∧
    (api_post_with_retry netAllFail samplePayload ((3 : Nat) : Int)).sleeps.length = 3 - 1 ∧
    ∃ e, (api_post_with_retry netAllFail samplePayload ((3 : Nat) : Int)).outcome =
      .ok (some (mkError e samplePayload)) :=
  ⟨⟨by decide, fun _ => trivial⟩,
   C1_exhausted_retries_error_payload netAllFail samplePayload 3 (by decide) (fun _ => trivial)⟩

/-- C2 counterexample: a 2xx response whose body is not parseable JSON
makes `api_post_with_retry` raise (the `JSONDecodeError` of
`response.json()` is not caught by the
`except (httpx.RequestError, httpx.HTTPStatusError)` clause), so this
operational failure escapes as an exception instead of an Error result:
the claim as stated is false. -/
theorem C2_counterexample :
    (api_post_with_retry netBadBody samplePayload 3).outcome =
      Except.error "JSONDecodeError: Expecting value" ∧
    ∀ v : Option Json,
      (api_post_with_retry netBadBody samplePayload 3).outcome ≠ Except.ok v := by
  refine ⟨rfl, ?_⟩
  intro v h
  rw [show (api_post_with_retry netBadBody samplePayload 3).outcome =
    Except.error "JSONDecodeError: Expecting value" from rfl] at h
  cases h

/-- C2 amended: transport-level failures and non-2xx statuses never
escape `api_post_with_retry` as exceptions — whenever no attempt yields
a 2xx response with an unparseable body, the call returns normally
(through the Success/Error union or the `None` fall-through); a 2xx
response with an unparseable body, however, raises past the executor's
boundary. -/
theorem C2_no_escape_amended (net : Nat → NetOutcome) (payload : Json)
    (retries : Int) (h : ∀ k, ¬ raising (net k)) :
    ∃ v, (api_post_with_retry net payload retries).outcome = .ok v :=
  api_no_raise net payload h retries

theorem C2_witness :
    (∀ k, ¬ raising (netAllFail k)) ∧
    ∃ v, (api_post_with_retry netAllFail samplePayload 3).outcome = .ok v :=
  ⟨fun _ h => h, C2_no_escape_amended netAllFail samplePayload 3 (fun _ h => h)⟩

/-- C3 counterexample: the backoff delay after attempt `k` is
`2 ^ k` time-units, so a call that fails twice then succeeds sleeps 2
then 4 time-units — not 1 then 2 as the claim states. -/
theorem C3_counterexample :
    (api_post_with_retry netFailTwice samplePayload 3).sleeps = [2, 4] ∧
    (api_post_with_retry netFailTwice samplePayload 3).sleeps ≠ [1, 2] := by
  constructor
  · rfl
  · intro h
    rw [show (api_post_with_retry netFailTwice samplePayload 3).sleeps = [2, 4] from rfl] at h
    exact absurd h (by decide)

/-- C3 amended: for every failed attempt `k` that is not the final
allowed attempt, `api_post_with_retry` suspends the caller for
`2 ^ k` time-units before the next attempt (2 after attempt 1, 4 after
attempt 2, ...), monotonically increasing with no jitter and no cap: the
sleep trace of any call is exactly `[2^1, ..., 2^(attempts-1)]`, and a
call that fails twice then succeeds incurs exactly the two delays 2
then 4. -/
theorem C3_backoff_amended (net : Nat → NetOutcome) (payload : Json) (retries : Int) :
    (api_post_with_retry net payload retries).sleeps =
      (List.range ((api_post_with_retry net payload retries).attempts - 1)).map
        (fun i => 2 ^ (i + 1)) ∧
    (api_post_with_retry netFailTwice samplePayload 3).sleeps = [2, 4] ∧
    (api_post_with_retry netFailTwice samplePayload 3).attempts = 3 := by
  refine ⟨?_, rfl, rfl⟩
  have h := retryLoop_sleeps net payload retries.toNat 1
  have hfun : (fun i => 2 ^ (1 + i)) = (fun i : Nat => 2 ^ (i + 1)) := by
    funext i
    congr 1
    omega
  unfold api_post_with_retry
  rw [h, hfun]

/-- C10: with `retries ≤ 0` the loop `for attempt in range(1, retries+1)`
never executes: no POST is attempted and the function returns `None`
rather than a Success/Error dict; with `retries ≥ 1` the returned value
is never `None`, so the RequestResult contract holds exactly under the
precondition `retries ≥ 1`. -/
theorem C10_none_on_nonpositive_retries (net : Nat → NetOutcome) (payload : Json)
    (retries : Int) :
    (retries ≤ 0 →
      (api_post_with_retry net payload retries).attempts = 0 ∧
      (api_post_with_retry net payload retries).outcome = .ok none) ∧
    (1 ≤ retries →
      (api_post_with_retry net payload retries).outcome ≠ .ok none) := by
  constructor
  · intro hle
    have htn : retries.toNat = 0 := by omega
    unfold api_post_with_retry
    rw [htn]
    exact ⟨rfl, rfl⟩
  · intro hge
    have htn : 1 ≤ retries.toNat := by omega
    unfold api_post_with_retry
    exact retryLoop_ne_none net payload retries.toNat 1 htn

theorem C10_witness :
    ((0 : Int) ≤ 0 ∧
      (api_post_with_retry netAllFail samplePayload 0).attempts = 0 ∧
      (api_post_with_retry netAllFail samplePayload 0).outcome = .ok none) ∧
    ((1 : Int) ≤ 2 ∧
      (api_post_with_retry netAllFail samplePayload 2).outcome ≠ .ok none) :=
  ⟨⟨by decide, (C10_none_on_nonpositive_retries netAllFail samplePayload 0).1 (by decide)⟩,
   ⟨by decide, (C10_none_on_nonpositive_retries netAllFail samplePayload 2).2 (by decide)⟩⟩

/-- C4: every invocation of `create_test_products` or
`create_test_customers` with `count = C` produces a result list with
exactly C entries, in submission order (the j-th entry is the executor
result of the j-th synthesized payload), and no entry is dropped when an
individual POST returns an Error result (the hypothesis only excludes the
unrelated raise path of an unparseable 2xx body). -/
theorem C4_count_entries (endpoints : Endpoints) (fakeSeq : Nat → Faker)
    (net : Nat → Nat → NetOutcome) (arguments : List (String × Json))
    (ps cs : EndpointSpec) (C : Nat)
    (hp : List.lookup "products" endpoints = some ps)
    (hc : List.lookup "customers" endpoints = some cs)
    (hcount : List.lookup "count" arguments = some (Json.int (C : Int)))
    (hnr : ∀ j k, ¬ raising (net j k)) :
    ((handle_call_tool endpoints fakeSeq net "create_test_products" arguments).result =
       .ok [⟨"text", Json.arr ((List.range C).map (fun j =>
         postResultJson (net j) (generate_fake_data (fakeSeq j) ps.fields)))⟩] ∧
     (handle_call_tool endpoints fakeSeq net "create_test_products" arguments).posts.length = C) ∧
    ((handle_call_tool endpoints fakeSeq net "create_test_customers" arguments).result =
       .ok [⟨"text", Json.arr ((List.range C).map (fun j =>
         postResultJson (net j) (generate_fake_data (fakeSeq j) cs.fields)))⟩] ∧
     (handle_call_tool endpoints fakeSeq net "create_test_customers" arguments).posts.length = C) := by
  have hget : getCountArg arguments = .ok (C : Int) := by
    unfold getCountArg
    rw [hcount]
  constructor
  · rw [handle_products_eq endpoints fakeSeq net arguments ps hp,
      runCreate_count fakeSeq net ps arguments C hget hnr]
    exact ⟨rfl, by simp⟩
  · rw [handle_customers_eq endpoints fakeSeq net arguments cs hc,
      runCreate_count fakeSeq net cs arguments C hget hnr]
    exact ⟨rfl, by simp⟩

theorem C4_witness :
    (List.lookup "products" sampleEndpoints = some sampleSpec ∧
     List.lookup "customers" sampleEndpoints = some sampleCustomersSpec ∧
     List.lookup "count" [("count", Json.int ((2 : Nat) : Int))] =
       some (Json.int ((2 : Nat) : Int)) ∧
     ∀ j k, ¬ raising (net2AllFail j k)) ∧
    ((handle_call_tool sampleEndpoints sampleFakeSeq net2AllFail "create_test_products"
        [("count", Json.int ((2 : Nat) : Int))]).result =
       .ok [⟨"text", Json.arr ((List.range 2).map (fun j =>
         postResultJson (net2AllFail j)
           (generate_fake_data (sampleFakeSeq j) sampleSpec.fields)))⟩] ∧
     (handle_call_tool sampleEndpoints sampleFakeSeq net2AllFail "create_test_products"
        [("count", Json.int ((2 : Nat) : Int))]).posts.length = 2) ∧
    ((handle_call_tool sampleEndpoints sampleFakeSeq net2AllFail "create_test_customers"
        [("count", Json.int ((2 : Nat) : Int))]).result =
       .ok [⟨"text", Json.arr ((List.range 2).map (fun j =>
         postResultJson (net2AllFail j)
           (generate_fake_data (sampleFakeSeq j) sampleCustomersSpec.fields)))⟩] ∧
     (handle_call_tool sampleEndpoints sampleFakeSeq net2AllFail "create_test_customers"
        [("count", Json.int ((2 : Nat) : Int))]).posts.length = 2) :=
  ⟨⟨rfl, rfl, rfl, fun _ _ h => h⟩,
   C4_count_entries sampleEndpoints sampleFakeSeq net2AllFail
     [("count", Json.int ((2 : Nat) : Int))] sampleSpec sampleCustomersSpec 2
     rfl rfl rfl (fun _ _ h => h)⟩

/-- C5: `clear_test_data` with `confirm` absent or `false` performs zero
executor calls (hence zero network POSTs) and returns the `cancelled`
status object, short-circuiting before any call to the executor. -/
theorem C5_unconfirmed_cancels (endpoints : Endpoints) (fakeSeq : Nat → Faker)
    (net : Nat → Nat → NetOutcome) (arguments : List (String × Json))
    (rs : EndpointSpec)
    (hr : List.lookup "reset" endpoints = some rs)
    (hconfirm : List.lookup "confirm" arguments = none ∨
      List.lookup "confirm" arguments = some (Json.bool false)) :
    (handle_call_tool endpoints fakeSeq net "clear_test_data" arguments).posts = [] ∧
    (handle_call_tool endpoints fakeSeq net "clear_test_data" arguments).result =
      .ok [⟨"text", Json.obj [("status", .str "cancelled"),
                              ("reason", .str "Confirmation required")]⟩] := by
  have hfalse : truthyOpt (List.lookup "confirm" arguments) = false := by
    rcases hconfirm with h | h <;> rw [h] <;> rfl
  rw [handle_reset_eq endpoints fakeSeq net arguments rs hr,
    if_neg (by rw [hfalse]; simp)]
  exact ⟨rfl, rfl⟩

theorem C5_witness :
    (List.lookup "reset" sampleEndpoints = some sampleResetSpec ∧
     (List.lookup "confirm" ([] : List (String × Json)) = none ∨
      List.lookup "confirm" ([] : List (String × Json)) = some (Json.bool false))) ∧
    (handle_call_tool sampleEndpoints sampleFakeSeq net2AllFail "clear_test_data" []).posts = [] ∧
    (handle_call_tool sampleEndpoints sampleFakeSeq net2AllFail "clear_test_data" []).result =
      .ok [⟨"text", Json.obj [("status", .str "cancelled"),
                              ("reason", .str "Confirmation required")]⟩] :=
  ⟨⟨rfl, Or.inl rfl⟩,
   C5_unconfirmed_cancels sampleEndpoints sampleFakeSeq net2AllFail [] sampleResetSpec
     rfl (Or.inl rfl)⟩

/-- C6: `clear_test_data` with `confirm = true` (and the reset endpoint
configured) performs exactly one executor call, to the configured reset
path, with an empty payload, and returns that single RequestResult. -/
theorem C6_confirmed_single_post (endpoints : Endpoints) (fakeSeq : Nat → Faker)
    (net : Nat → Nat → NetOutcome) (arguments : List (String × Json))
    (rs : EndpointSpec)
    (hr : List.lookup "reset" endpoints = some rs)
    (hconfirm : List.lookup "confirm" arguments = some (Json.bool true))
    (hnr : ∀ k, ¬ raising (net 0 k)) :
    (handle_call_tool endpoints fakeSeq net "clear_test_data" arguments).posts =
      [(rs.path, Json.obj [])] ∧
    (handle_call_tool endpoints fakeSeq net "clear_test_data" arguments).result =
      .ok [⟨"text", Json.arr [postResultJson (net 0) (Json.obj [])]⟩] := by
  obtain ⟨v, hv⟩ := api_no_raise (net 0) (Json.obj []) hnr 3
  have htrue : truthyOpt (List.lookup "confirm" arguments) = true := by
    rw [hconfirm]
    rfl
  rw [handle_reset_eq endpoints fakeSeq net arguments rs hr, if_pos htrue, hv,
    postResultJson_eq (net 0) (Json.obj []) v hv]
  exact ⟨rfl, rfl⟩

theorem C6_witness :
    (List.lookup "reset" sampleEndpoints = some sampleResetSpec ∧
     List.lookup "confirm" [("confirm", Json.bool true)] = some (Json.bool true) ∧
     ∀ k, ¬ raising (net2AllFail 0 k)) ∧
    (handle_call_tool sampleEndpoints sampleFakeSeq net2AllFail "clear_test_data"
       [("confirm", Json.bool true)]).posts = [(sampleResetSpec.path, Json.obj [])] ∧
    (handle_call_tool sampleEndpoints sampleFakeSeq net2AllFail "clear_test_data"
       [("confirm", Json.bool true)]).result =
      .ok [⟨"text", Json.arr [postResultJson (net2AllFail 0) (Json.obj [])]⟩] :=
  ⟨⟨rfl, rfl, fun _ h => h⟩,
   C6_confirmed_single_post sampleEndpoints sampleFakeSeq net2AllFail
     [("confirm", Json.bool true)] sampleResetSpec rfl rfl (fun _ h => h)⟩

/-- C7: an invocation whose name does not resolve against the currently
available operations — an unknown name, or a known name whose
configuration key is absent from the endpoint map — raises the
`ValueError("Unknown tool: ...")` for that invocation and performs zero
executor calls (hence zero network POSTs). -/
theorem C7_unknown_operation (endpoints : Endpoints) (fakeSeq : Nat → Faker)
    (net : Nat → Nat → NetOutcome) (name : String) (arguments : List (String × Json))
    (h1 : ¬(name = "create_test_products" ∧ (List.lookup "products" endpoints).isSome))
    (h2 : ¬(name = "create_test_customers" ∧ (List.lookup "customers" endpoints).isSome))
    (h3 : ¬(name = "clear_test_data" ∧ (List.lookup "reset" endpoints).isSome)) :
    (handle_call_tool endpoints fakeSeq net name arguments).posts = [] ∧
    (handle_call_tool endpoints fakeSeq net name arguments).result =
      .error ("ValueError: Unknown tool: " ++ name) := by
  unfold handle_call_tool
  by_cases e1 : name = "create_test_products"
  · rw [if_pos e1]
    have hnone : List.lookup "products" endpoints = none := by
      cases hl : List.lookup "products" endpoints with
      | none => rfl
      | some spec => exact absurd ⟨e1, by rw [hl]; rfl⟩ h1
    rw [hnone]
    exact ⟨rfl, rfl⟩
  · rw [if_neg e1]
    by_cases e2 : name = "create_test_customers"
    · rw [if_pos e2]
      have hnone : List.lookup "customers" endpoints = none := by
        cases hl : List.lookup "customers" endpoints with
        | none => rfl
        | some spec => exact absurd ⟨e2, by rw [hl]; rfl⟩ h2
      rw [hnone]
      exact ⟨rfl, rfl⟩
    · rw [if_neg e2]
      by_cases e3 : name = "clear_test_data"
      · rw [if_pos e3]
        have hnone : List.lookup "reset" endpoints = none := by
          cases hl : List.lookup "reset" endpoints with
          | none => rfl
          | some spec => exact absurd ⟨e3, by rw [hl]; rfl⟩ h3
        rw [hnone]
        exact ⟨rfl, rfl⟩
      · rw [if_neg e3]
        exact ⟨rfl, rfl⟩

theorem C7_witness :
    (¬("clear_test_data" = "create_test_products" ∧
        (List.lookup "products" ([] : Endpoints)).isSome) ∧
     ¬("clear_test_data" = "create_test_customers" ∧
        (List.lookup "customers" ([] : Endpoints)).isSome) ∧
     ¬("clear_test_data" = "clear_test_data" ∧
        (List.lookup "reset" ([] : Endpoints)).isSome)) ∧
    (handle_call_tool [] sampleFakeSeq net2AllFail "clear_test_data" []).posts = [] ∧
    (handle_call_tool [] sampleFakeSeq net2AllFail "clear_test_data" []).result =
      .error ("ValueError: Unknown tool: " ++ "clear_test_data") :=
  ⟨⟨by decide, by decide, by decide⟩,
   C7_unknown_operation [] sampleFakeSeq net2AllFail "clear_test_data" []
     (by decide) (by decide) (by decide)⟩

/-- C8: for every loaded endpoint map, `handle_list_tools` returns
exactly the subset of the three operations whose configuration key
(`products`, `customers`, `reset`) is present, in that order; with only
the `products` key present it returns exactly `create_test_products`,
and with all three keys present it returns all three. -/
theorem C8_catalog_subset (endpoints : Endpoints) :
    (handle_list_tools endpoints).map Tool.name =
      ((if (List.lookup "products" endpoints).isSome
          then ["create_test_products"] else []) ++
       (if (List.lookup "customers" endpoints).isSome
          then ["create_test_customers"] else []) ++
       (if (List.lookup "reset" endpoints).isSome
          then ["clear_test_data"] else [])) ∧
    (handle_list_tools [("products", sampleSpec)]).map Tool.name =
      ["create_test_products"] ∧
    (handle_list_tools sampleEndpoints).map Tool.name =
      ["create_test_products", "create_test_customers", "clear_test_data"] := by
  refine ⟨?_, rfl, rfl⟩
  unfold handle_list_tools
  split_ifs <;> rfl

/-- C9: invoking `create_test_products` or `create_test_customers`
without a `count` argument does not fail: `count` defaults to 1 and
exactly one record is generated and submitted — even though the
advertised input schema of both operations declares `count` as required. -/
theorem C9_absent_count_defaults_to_one (endpoints : Endpoints) (fakeSeq : Nat → Faker)
    (net : Nat → Nat → NetOutcome) (arguments : List (String × Json))
    (ps cs : EndpointSpec)
    (hp : List.lookup "products" endpoints = some ps)
    (hc : List.lookup "customers" endpoints = some cs)
    (hno : List.lookup "count" arguments = none)
    (hnr : ∀ j k, ¬ raising (net j k)) :
    ((handle_call_tool endpoints fakeSeq net "create_test_products" arguments).result =
       .ok [⟨"text", Json.arr [postResultJson (net 0)
         (generate_fake_data (fakeSeq 0) ps.fields)]⟩] ∧
     (handle_call_tool endpoints fakeSeq net "create_test_products" arguments).posts =
       [(ps.path, generate_fake_data (fakeSeq 0) ps.fields)]) ∧
    ((handle_call_tool endpoints fakeSeq net "create_test_customers" arguments).result =
       .ok [⟨"text", Json.arr [postResultJson (net 0)
         (generate_fake_data (fakeSeq 0) cs.fields)]⟩] ∧
     (handle_call_tool endpoints fakeSeq net "create_test_customers" arguments).posts =
       [(cs.path, generate_fake_data (fakeSeq 0) cs.fields)]) ∧
    productsTool ∈ handle_list_tools endpoints ∧
    customersTool ∈ handle_list_tools endpoints ∧
    productsTool.inputSchema.required = ["count"] ∧
    customersTool.inputSchema.required = ["count"] := by
  have hget : getCountArg arguments = .ok ((1 : Nat) : Int) := by
    unfold getCountArg
    rw [hno]
    norm_num
  refine ⟨?_, ?_, ?_, ?_, rfl, rfl⟩
  · rw [handle_products_eq endpoints fakeSeq net arguments ps hp,
      runCreate_count fakeSeq net ps arguments 1 hget hnr]
    exact ⟨by simp [List.range_succ], by simp [List.range_succ]⟩
  · rw [handle_customers_eq endpoints fakeSeq net arguments cs hc,
      runCreate_count fakeSeq net cs arguments 1 hget hnr]
    exact ⟨by simp [List.range_succ], by simp [List.range_succ]⟩
  · have hps : (List.lookup "products" endpoints).isSome := by
      rw [hp]
      rfl
    unfold handle_list_tools
    rw [if_pos hps]
    simp
  · have hcs : (List.lookup "customers" endpoints).isSome := by
      rw [hc]
      rfl
    unfold handle_list_tools
    rw [if_pos hcs]
    simp

theorem C9_witness :
    (List.lookup "products" sampleEndpoints = some sampleSpec ∧
     List.lookup "customers" sampleEndpoints = some sampleCustomersSpec ∧
     List.lookup "count" ([] : List (String × Json)) = none ∧
     ∀ j k, ¬ raising (net2AllFail j k)) ∧
    ((handle_call_tool sampleEndpoints sampleFakeSeq net2AllFail
        "create_test_products" []).result =
       .ok [⟨"text", Json.arr [postResultJson (net2AllFail 0)
         (generate_fake_data (sampleFakeSeq 0) sampleSpec.fields)]⟩] ∧
     (handle_call_tool sampleEndpoints sampleFakeSeq net2AllFail
        "create_test_products" []).posts =
       [(sampleSpec.path, generate_fake_data (sampleFakeSeq 0) sampleSpec.fields)]) ∧
    ((handle_call_tool sampleEndpoints sampleFakeSeq net2AllFail
        "create_test_customers" []).result =
       .ok [⟨"text", Json.arr [postResultJson (net2AllFail 0)
         (generate_fake_data (sampleFakeSeq 0) sampleCustomersSpec.fields)]⟩] ∧
     (handle_call_tool sampleEndpoints sampleFakeSeq net2AllFail
        "create_test_customers" []).posts =
       [(sampleCustomersSpec.path,
         generate_fake_data (sampleFakeSeq 0) sampleCustomersSpec.fields)]) ∧
    productsTool ∈ handle_list_tools sampleEndpoints ∧
    customersTool ∈ handle_list_tools sampleEndpoints ∧
    productsTool.inputSchema.required = ["count"] ∧
    customersTool.inputSchema.required = ["count"] :=
  ⟨⟨rfl, rfl, rfl, fun _ _ h => h⟩,
   C9_absent_count_defaults_to_one sampleEndpoints sampleFakeSeq net2AllFail []
     sampleSpec sampleCustomersSpec rfl rfl rfl (fun _ _ h => h)⟩
